import Mathlib

/-!
Verification of the equipment-lending portal: borrow-request lifecycle,
authorization gating, login, validation, filtering and session storage,
shallowly embedded from the repository sources.

Sources embedded here:
- `RequestsManagement` page: `getFilteredRequests`, `handleApprove`,
  `handleReject`, `handleMarkReturned`, `mockRequestsData`;
- `AdminDashboard` page: `handleApproveRequest`, `handleRejectRequest`;
- `App` routing table and the backend `requestRoutes` router;
- `LoginForm.handleSubmit` with its mock user list;
- `BorrowEquipment.validateForm` and `StudentDashboard.handleSubmitBorrow`;
- `services/api.js` token/user storage helpers.
-/

namespace Portal

/-- Request status: the string field `status` of a borrow request, one of
`"pending"`, `"approved"`, `"rejected"`, `"returned"`. -/
inductive Status where
  | pending
  | approved
  | rejected
  | returned
deriving DecidableEq, Repr

/-- The string stored in the JS `status` field for each `Status`. -/
def statusStr : Status → String
  | .pending => "pending"
  | .approved => "approved"
  | .rejected => "rejected"
  | .returned => "returned"

/-- A borrow request record, with the fields of the objects in
`mockRequestsData` of the `RequestsManagement` page.  Dates are the
`YYYY-MM-DD` strings the page stores; `approvedBy`, `approvalDate` and
`notes` are `null` (`none`) until a decision is recorded. -/
structure Request where
  id : Nat
  studentName : String
  studentId : String
  studentEmail : String
  equipmentName : String
  equipmentId : Nat
  requestedDate : String
  borrowFromDate : String
  borrowToDate : String
  purpose : String
  status : Status
  approvedBy : Option String
  approvalDate : Option String
  notes : Option String
deriving DecidableEq, Repr

/-- `handleApprove` of `RequestsManagement`: maps over the request list and
replaces the request whose `id` matches with a copy whose `status` is
`"approved"`, `approvedBy` is the acting admin name (`user.name`),
`approvalDate` is the current date (passed here as `today`, the value of
`new Date().toISOString().split("T")[0]`) and `notes` is the modal text
`actionNotes`.  Every other request is returned unchanged. -/
def handleApprove (userName today actionNotes : String) (requestId : Nat)
    (requests : List Request) : List Request :=
  requests.map fun req =>
    if req.id = requestId then
      { req with
        status := Status.approved
        approvedBy := some userName
        approvalDate := some today
        notes := some actionNotes }
    else req

/-- `handleReject` of `RequestsManagement`: same shape as `handleApprove`
but sets `status` to `"rejected"`; the rejection reason typed in the modal
is stored in `notes`. -/
def handleReject (userName today actionNotes : String) (requestId : Nat)
    (requests : List Request) : List Request :=
  requests.map fun req =>
    if req.id = requestId then
      { req with
        status := Status.rejected
        approvedBy := some userName
        approvalDate := some today
        notes := some actionNotes }
    else req

/-- `handleMarkReturned` of `RequestsManagement`: sets `status` to
`"returned"` and `notes` to `actionNotes || req.notes` (the old notes are
kept when the typed notes are the empty string, which is falsy in JS). -/
def handleMarkReturned (actionNotes : String) (requestId : Nat)
    (requests : List Request) : List Request :=
  requests.map fun req =>
    if req.id = requestId then
      { req with
        status := Status.returned
        notes := if actionNotes = "" then req.notes else some actionNotes }
    else req

/-- One admin action of the `RequestsManagement` page, with the component
state it reads (`user.name`, the current date, `actionNotes`) and the
target request id. -/
inductive AdminOp where
  | approve (userName today actionNotes : String) (requestId : Nat)
  | reject (userName today actionNotes : String) (requestId : Nat)
  | markReturned (actionNotes : String) (requestId : Nat)

/-- The request id an `AdminOp` targets. -/
def AdminOp.target : AdminOp → Nat
  | .approve _ _ _ rid => rid
  | .reject _ _ _ rid => rid
  | .markReturned _ rid => rid

/-- Dispatch an `AdminOp` to the corresponding page handler. -/
def applyOp : AdminOp → List Request → List Request
  | .approve u t n rid, l => handleApprove u t n rid l
  | .reject u t n rid, l => handleReject u t n rid l
  | .markReturned n rid, l => handleMarkReturned n rid l

/-- The per-element update each handler performs on a single request. -/
def stepReq : AdminOp → Request → Request
  | .approve u t n rid, req =>
    if req.id = rid then
      { req with
        status := Status.approved
        approvedBy := some u
        approvalDate := some t
        notes := some n }
    else req
  | .reject u t n rid, req =>
    if req.id = rid then
      { req with
        status := Status.rejected
        approvedBy := some u
        approvalDate := some t
        notes := some n }
    else req
  | .markReturned n rid, req =>
    if req.id = rid then
      { req with
        status := Status.returned
        notes := if n = "" then req.notes else some n }
    else req

/-- Apply a sequence of admin actions left to right. -/
def applySeq (ops : List AdminOp) (l : List Request) : List Request :=
  ops.foldl (fun s op => applyOp op s) l

/-- The guard the page UI enforces before an action can be triggered:
the approve and reject buttons are rendered only on rows with
`status === "pending"`, the returned button only on rows with
`status === "approved"`. -/
def opGuard : AdminOp → List Request → Prop
  | .approve _ _ _ rid, l => ∀ r ∈ l, r.id = rid → r.status = Status.pending
  | .reject _ _ _ rid, l => ∀ r ∈ l, r.id = rid → r.status = Status.pending
  | .markReturned _ rid, l => ∀ r ∈ l, r.id = rid → r.status = Status.approved

/-- A sequence of admin actions each of which satisfies the UI guard in
the state where it is applied. -/
inductive GuardedSeq : List AdminOp → List Request → Prop where
  | nil (l : List Request) : GuardedSeq [] l
  | cons {op : AdminOp} {ops : List AdminOp} {l : List Request} :
      opGuard op l → GuardedSeq ops (applyOp op l) → GuardedSeq (op :: ops) l

/-- Reachability in the status graph whose edges are
`pending → approved`, `pending → rejected`, `approved → returned`
(the reflexive-transitive closure of the allowed transitions). -/
def statusReach : Status → Status → Bool
  | .pending, _ => true
  | .approved, .approved => true
  | .approved, .returned => true
  | .rejected, .rejected => true
  | .returned, .returned => true
  | _, _ => false

/-- The `mockRequestsData` fixture of the `RequestsManagement` page. -/
def mockRequestsData : List Request :=
  [ { id := 1
      studentName := "John Student"
      studentId := "STU001"
      studentEmail := "student@example.com"
      equipmentName := "Basketball Set"
      equipmentId := 1
      requestedDate := "2025-11-02"
      borrowFromDate := "2025-11-05"
      borrowToDate := "2025-11-10"
      purpose := "Sports practice and tournament"
      status := Status.pending
      approvedBy := none
      approvalDate := none
      notes := none },
    { id := 2
      studentName := "Jane Doe"
      studentId := "STU002"
      studentEmail := "jane@example.com"
      equipmentName := "Microscope"
      equipmentId := 2
      requestedDate := "2025-11-02"
      borrowFromDate := "2025-11-06"
      borrowToDate := "2025-11-08"
      purpose := "Biology lab experiment"
      status := Status.pending
      approvedBy := none
      approvalDate := none
      notes := none },
    { id := 3
      studentName := "Mike Johnson"
      studentId := "STU003"
      studentEmail := "mike@example.com"
      equipmentName := "Digital Camera"
      equipmentId := 3
      requestedDate := "2025-11-01"
      borrowFromDate := "2025-11-03"
      borrowToDate := "2025-11-05"
      purpose := "Photography project"
      status := Status.approved
      approvedBy := some "Admin User"
      approvalDate := some "2025-11-01"
      notes := some "Approved - return in good condition" },
    { id := 4
      studentName := "Sarah Smith"
      studentId := "STU004"
      studentEmail := "sarah@example.com"
      equipmentName := "Laptop"
      equipmentId := 5
      requestedDate := "2025-11-01"
      borrowFromDate := "2025-11-02"
      borrowToDate := "2025-11-04"
      purpose := "Programming assignment"
      status := Status.returned
      approvedBy := some "Admin User"
      approvalDate := some "2025-11-01"
      notes := some "Returned in good condition" },
    { id := 5
      studentName := "Tom Wilson"
      studentId := "STU005"
      studentEmail := "tom@example.com"
      equipmentName := "Guitar"
      equipmentId := 4
      requestedDate := "2025-10-31"
      borrowFromDate := "2025-11-01"
      borrowToDate := "2025-11-03"
      purpose := "Musical practice"
      status := Status.rejected
      approvedBy := some "Admin User"
      approvalDate := some "2025-10-31"
      notes := some "Equipment damaged - not available" } ]

/-- `p` is a prefix of `l`, character by character (helper for the JS
`String.prototype.includes` embedding). -/
def charsStartWith : List Char → List Char → Bool
  | [], _ => true
  | _ :: _, [] => false
  | a :: p, b :: l => a == b && charsStartWith p l

/-- `needle` occurs as a contiguous run inside `hay` (helper for the JS
`String.prototype.includes` embedding). -/
def charsContain (needle : List Char) : List Char → Bool
  | [] => needle.isEmpty
  | b :: t => charsStartWith needle (b :: t) || charsContain needle t

/-- `hay.toLowerCase().includes(needle.toLowerCase())`: case-insensitive
substring test as used by the search filters. -/
def containsCI (hay needle : String) : Bool :=
  charsContain (needle.data.map Char.toLower) (hay.data.map Char.toLower)

/-- `getFilteredRequests` of `RequestsManagement`: when `searchTerm` is
non-empty (truthy), keep the requests whose `studentName`, `equipmentName`
or `studentId` contains the term case-insensitively; then, when
`filterStatus` is not `"all"`, keep the requests whose status string
equals the filter. -/
def getFilteredRequests (requests : List Request)
    (searchTerm filterStatus : String) : List Request :=
  let bySearch :=
    if searchTerm ≠ "" then
      requests.filter fun req =>
        containsCI req.studentName searchTerm ||
        containsCI req.equipmentName searchTerm ||
        containsCI req.studentId searchTerm
    else requests
  if filterStatus ≠ "all" then
    bySearch.filter fun req => statusStr req.status == filterStatus
  else bySearch

/-- An equipment inventory record, with the fields of the objects in
`mockEquipmentData` of the `StudentDashboard` page (`image` is `null` in
every fixture entry). -/
structure Equipment where
  id : Nat
  name : String
  category : String
  description : String
  condition : String
  quantity : Nat
  available : Nat
  image : Option String
deriving DecidableEq, Repr

/-- The `mockEquipmentData` fixture of the `StudentDashboard` page.
Entry 6 (`Toolkit`) has `available = 0`. -/
def mockEquipmentData : List Equipment :=
  [ ⟨1, "Basketball Set", "Sports",
      "Professional basketball set with 5 balls and pump", "Good", 5, 3, none⟩,
    ⟨2, "Microscope", "Lab",
      "Advanced optical microscope for laboratory work", "Excellent", 10, 8, none⟩,
    ⟨3, "Digital Camera", "Camera",
      "24MP DSLR camera with lenses", "Good", 4, 2, none⟩,
    ⟨4, "Guitar", "Musical",
      "Acoustic guitar with case and accessories", "Good", 3, 1, none⟩,
    ⟨5, "Laptop", "Computing",
      "Intel i7 laptop for project work", "Excellent", 6, 4, none⟩,
    ⟨6, "Toolkit", "Tools",
      "Complete toolkit with 50+ tools", "Good", 2, 0, none⟩,
    ⟨7, "Projector", "Computing",
      "4K projector for presentations", "Good", 3, 2, none⟩,
    ⟨8, "Volleyball Set", "Sports",
      "Professional volleyball set with net", "Fair", 4, 2, none⟩ ]

/-- A row of `mockRecentRequests` in the `AdminDashboard` page. -/
structure RecentRequest where
  id : Nat
  studentName : String
  studentId : String
  equipmentName : String
  requestedDate : String
  status : Status
deriving DecidableEq, Repr

/-- `handleApproveRequest` of `AdminDashboard`: sets the status of the
matching request to `"approved"`; it reads no equipment data and performs
no availability check or decrement. -/
def handleApproveRequest (requestId : Nat)
    (requests : List RecentRequest) : List RecentRequest :=
  requests.map fun req =>
    if req.id = requestId then { req with status := Status.approved } else req

/-- `handleRejectRequest` of `AdminDashboard`: sets the status of the
matching request to `"rejected"`. -/
def handleRejectRequest (requestId : Nat)
    (requests : List RecentRequest) : List RecentRequest :=
  requests.map fun req =>
    if req.id = requestId then { req with status := Status.rejected } else req

/-- A user role, one of the strings `"student"`, `"staff"`, `"admin"`. -/
inductive Role where
  | student
  | staff
  | admin
deriving DecidableEq, Repr

/-- A record of the `mockUsers` fixture in `LoginForm`. -/
structure MockUser where
  id : String
  name : String
  email : String
  password : String
  role : Role
deriving DecidableEq, Repr

/-- The `mockUsers` fixture of `LoginForm`. -/
def mockUsers : List MockUser :=
  [ ⟨"1", "John Student", "student@example.com", "password123", Role.student⟩,
    ⟨"2", "Jane Staff", "staff@example.com", "password123", Role.staff⟩,
    ⟨"3", "Admin User", "admin@example.com", "password123", Role.admin⟩ ]

/-- The login form state: email, password and selected role. -/
structure LoginFormData where
  email : String
  password : String
  role : Role

/-- The user object passed to `onLogin` on success (the mock user without
its password). -/
structure SessionUser where
  id : String
  name : String
  email : String
  role : Role
deriving DecidableEq, Repr

/-- The observable outcome of `LoginForm.handleSubmit`: one of the three
`setError` branches, or the `onLogin` call with the session user. -/
inductive LoginResult where
  | emptyFieldsError
  | invalidEmailError
  | invalidCredentialsError
  | loggedIn (u : SessionUser)
deriving DecidableEq, Repr

/-- A character allowed by the `[^\s@]` class of the email regex in
`LoginForm`: neither whitespace nor the at sign. -/
def okEmailChar (c : Char) : Bool :=
  !c.isWhitespace && c != '@'

/-- The part of the email regex after the at sign, `[^\s@]+\.[^\s@]+`:
some position holds a dot with a non-empty run of allowed characters on
each side. -/
def emailTailMatch (cs : List Char) : Bool :=
  (List.range cs.length).any fun i =>
    cs.get? i == some '.' && decide (0 < i) && decide (i + 1 < cs.length) &&
    (cs.take i).all okEmailChar && (cs.drop (i + 1)).all okEmailChar

/-- The email regex of `LoginForm`, `^[^\s@]+@[^\s@]+\.[^\s@]+$`: a
non-empty run of allowed characters, an at sign, then `emailTailMatch`. -/
def validEmail (s : String) : Bool :=
  let cs := s.data
  (List.range cs.length).any fun j =>
    cs.get? j == some '@' && decide (0 < j) &&
    (cs.take j).all okEmailChar && emailTailMatch (cs.drop (j + 1))

/-- `LoginForm.handleSubmit`: rejects empty email or password, then an
email failing the regex, then looks the credentials up in `mockUsers`
requiring email, password and role to all match; on success the session
user (without password) is passed to `onLogin`. -/
def handleSubmit (fd : LoginFormData) : LoginResult :=
  if fd.email = "" || fd.password = "" then
    LoginResult.emptyFieldsError
  else if !validEmail fd.email then
    LoginResult.invalidEmailError
  else
    match mockUsers.find? fun u =>
        u.email == fd.email && u.password == fd.password && u.role == fd.role with
    | some u => LoginResult.loggedIn ⟨u.id, u.name, u.email, u.role⟩
    | none => LoginResult.invalidCredentialsError

/-- The route paths of the `App` component. -/
inductive RoutePath where
  | login
  | studentDashboard
  | adminDashboard
  | borrowHistory
  | equipmentManagement
  | borrowEquipment
  | requests
  | home
  | other
deriving DecidableEq, Repr

/-- What a route renders: a page component or a `Navigate` redirect. -/
inductive RenderResult where
  | loginForm
  | studentDashboardPage
  | adminDashboardPage
  | borrowHistoryPage
  | equipmentManagementPage
  | borrowEquipmentPage
  | requestsManagementPage
  | navigate (dest : RoutePath)
deriving DecidableEq, Repr

/-- The `Routes` element of the `App` component: each admin-only path
renders its page only when `user && user.role === "admin"` and otherwise
redirects to `/login`. -/
def renderRoute (user : Option SessionUser) : RoutePath → RenderResult
  | .login => RenderResult.loginForm
  | .studentDashboard =>
    match user with
    | some u =>
      if u.role = Role.student ∨ u.role = Role.staff then
        RenderResult.studentDashboardPage
      else RenderResult.navigate RoutePath.login
    | none => RenderResult.navigate RoutePath.login
  | .adminDashboard =>
    match user with
    | some u =>
      if u.role = Role.admin then RenderResult.adminDashboardPage
      else RenderResult.navigate RoutePath.login
    | none => RenderResult.navigate RoutePath.login
  | .borrowHistory =>
    match user with
    | some _ => RenderResult.borrowHistoryPage
    | none => RenderResult.navigate RoutePath.login
  | .equipmentManagement =>
    match user with
    | some u =>
      if u.role = Role.admin then RenderResult.equipmentManagementPage
      else RenderResult.navigate RoutePath.login
    | none => RenderResult.navigate RoutePath.login
  | .borrowEquipment =>
    match user with
    | some _ => RenderResult.borrowEquipmentPage
    | none => RenderResult.navigate RoutePath.login
  | .requests =>
    match user with
    | some u =>
      if u.role = Role.admin then RenderResult.requestsManagementPage
      else RenderResult.navigate RoutePath.login
    | none => RenderResult.navigate RoutePath.login
  | .home =>
    match user with
    | some u =>
      if u.role = Role.admin then RenderResult.navigate RoutePath.adminDashboard
      else RenderResult.navigate RoutePath.studentDashboard
    | none => RenderResult.navigate RoutePath.login
  | .other => RenderResult.navigate RoutePath.home

/-- The middleware names wired in `requestRoutes`. -/
inductive Middleware where
  | authenticate
  | adminOnly
  | studentOnly
deriving DecidableEq, Repr

/-- The controller functions named in `requestRoutes`. -/
inductive RouteHandler where
  | createRequest
  | getUserRequests
  | getAllRequests
  | approveRequest
  | rejectRequest
  | markReturned
  | getAdminStats
deriving DecidableEq, Repr

/-- One `router.<method>(path, ...middlewares, handler)` registration. -/
structure RouteEntry where
  method : String
  path : String
  middlewares : List Middleware
  handler : RouteHandler
deriving DecidableEq, Repr

/-- The registrations of the backend `requestRoutes` router, in source
order. -/
def requestRoutes : List RouteEntry :=
  [ ⟨"POST", "/create", [Middleware.authenticate, Middleware.studentOnly],
      RouteHandler.createRequest⟩,
    ⟨"GET", "/user/:userId", [Middleware.authenticate],
      RouteHandler.getUserRequests⟩,
    ⟨"GET", "/", [Middleware.authenticate, Middleware.adminOnly],
      RouteHandler.getAllRequests⟩,
    ⟨"POST", "/:requestId/approve", [Middleware.authenticate, Middleware.adminOnly],
      RouteHandler.approveRequest⟩,
    ⟨"POST", "/:requestId/reject", [Middleware.authenticate, Middleware.adminOnly],
      RouteHandler.rejectRequest⟩,
    ⟨"POST", "/:requestId/return", [Middleware.authenticate, Middleware.adminOnly],
      RouteHandler.markReturned⟩,
    ⟨"GET", "/admin/stats", [Middleware.authenticate, Middleware.adminOnly],
      RouteHandler.getAdminStats⟩ ]

/-- The admin-only controller functions of `requestRoutes`: the
all-requests listing, approve, reject, return and the admin stats. -/
def adminHandlers : List RouteHandler :=
  [ RouteHandler.getAllRequests, RouteHandler.approveRequest,
    RouteHandler.rejectRequest, RouteHandler.markReturned,
    RouteHandler.getAdminStats ]

/-- Modelled from the spec: the bodies of the `authenticate`, `adminOnly`
and `studentOnly` middlewares live in `backend/middleware/authMiddleware.js`,
which is not among the sources; section 4.2 of the spec states the gate
admits a caller only when its role is in the allowed set, failing with
`Unauthenticated` for a missing credential and `Forbidden` otherwise,
before any state mutation. -/
def passesMiddleware (user : Option SessionUser) : Middleware → Bool
  | .authenticate => user.isSome
  | .adminOnly =>
    match user with
    | some u => u.role == Role.admin
    | none => false
  | .studentOnly =>
    match user with
    | some u => u.role == Role.student || u.role == Role.staff
    | none => false

/-- Whether a caller context carries the admin role. -/
def isAdminCtx (user : Option SessionUser) : Bool :=
  match user with
  | some u => u.role == Role.admin
  | none => false

/-- The outcome of dispatching a request through a route: whether the
middleware chain admitted it, and the store state afterwards. -/
structure DispatchResult (St : Type) where
  allowed : Bool
  state : St
deriving Repr

/-- Modelled from the spec: Express runs the middleware chain before the
handler, and section 4.2 states the gate is consulted synchronously before
any state mutation; a request denied by some middleware never reaches the
handler, leaving the store unchanged. -/
def dispatch {St : Type} (exec : RouteHandler → St → St) (e : RouteEntry)
    (user : Option SessionUser) (st : St) : DispatchResult St :=
  if e.middlewares.all (passesMiddleware user) then
    ⟨true, exec e.handler st⟩
  else
    ⟨false, st⟩

/-- The `formData` state of the `BorrowEquipment` page (all fields are
strings; an empty string is the falsy unset value). -/
structure BorrowFormData where
  equipmentId : String
  equipmentName : String
  borrowFromDate : String
  borrowToDate : String
  notes : String

/-- The `newErrors` object built by `validateForm`; a `none` field means
no error was recorded for it. -/
structure FormErrors where
  equipmentId : Option String
  borrowFromDate : Option String
  borrowToDate : Option String
  notes : Option String
deriving DecidableEq, Repr

/-- `new Date(a) < new Date(b)` on the fixed-width `YYYY-MM-DD` strings
produced by the date inputs: chronological order on such strings
coincides with lexicographic string order. -/
def dateBefore (a b : String) : Bool :=
  decide (a < b)

/-- `validateForm` of `BorrowEquipment`.  The guard
`new Date(from) >= new Date(to)` is the negation of `dateBefore from to`
and is only evaluated when both date fields are non-empty. -/
def validateForm (fd : BorrowFormData) : FormErrors :=
  let eEquipment :=
    if fd.equipmentId = "" then some "Please select equipment" else none
  let eFrom :=
    if fd.borrowFromDate = "" then some "Please select a borrow date" else none
  let eTo0 :=
    if fd.borrowToDate = "" then some "Please select a return date" else none
  let eTo :=
    if fd.borrowFromDate ≠ "" ∧ fd.borrowToDate ≠ "" then
      if dateBefore fd.borrowFromDate fd.borrowToDate then eTo0
      else some "Return date must be after borrow date"
    else eTo0
  let eNotes :=
    if fd.notes = "" then some "Please enter purpose/notes" else none
  ⟨eEquipment, eFrom, eTo, eNotes⟩

/-- `Object.keys(newErrors).length === 0`: validation passes when no
error field was recorded. -/
def validateFormOk (fd : BorrowFormData) : Bool :=
  match validateForm fd with
  | ⟨none, none, none, none⟩ => true
  | _ => false

/-- The validation condition in the words of the claim: every required
field (equipment selection, from-date, to-date, purpose/notes) is
non-empty and the to-date is strictly after the from-date. -/
def claimValidationOk (fd : BorrowFormData) : Bool :=
  !(fd.equipmentId == "") && !(fd.borrowFromDate == "") &&
  !(fd.borrowToDate == "") && !(fd.notes == "") &&
  dateBefore fd.borrowFromDate fd.borrowToDate

/-- A borrow request object as built by `handleSubmitBorrow` of
`StudentDashboard`. -/
structure DashRequest where
  id : Nat
  studentId : String
  studentName : String
  equipmentId : Nat
  equipmentName : String
  borrowDate : String
  requestDate : String
  status : Status
deriving DecidableEq, Repr

/-- The `newRequest` object literal of `handleSubmitBorrow`: id is the
current list length plus one, both dates are the current date
(`new Date().toLocaleDateString()`, passed here as `today`), and the
status is `"pending"`. -/
def newBorrowRequest (user : SessionUser) (equip : Equipment)
    (today : String) (borrowRequests : List DashRequest) : DashRequest :=
  ⟨borrowRequests.length + 1, user.id, user.name, equip.id, equip.name,
    today, today, Status.pending⟩

/-- `handleSubmitBorrow` of `StudentDashboard`: appends the new request to
the `borrowRequests` state. -/
def handleSubmitBorrow (user : SessionUser) (equip : Equipment)
    (today : String) (borrowRequests : List DashRequest) : List DashRequest :=
  borrowRequests ++ [newBorrowRequest user equip today borrowRequests]

/-- The browser `localStorage`, as a partial map from keys to strings. -/
def Storage : Type := String → Option String

/-- `localStorage.setItem`. -/
def storageSet (k v : String) (s : Storage) : Storage :=
  fun q => if q = k then some v else s q

/-- `localStorage.removeItem`. -/
def storageRemove (k : String) (s : Storage) : Storage :=
  fun q => if q = k then none else s q

/-- The `TOKEN_KEY` constant of `services/api.js`. -/
def TOKEN_KEY : String := "equipmentPortal_token"

/-- The `USER_KEY` constant of `services/api.js`. -/
def USER_KEY : String := "equipmentPortal_user"

/-- `setToken`: stores the token under `TOKEN_KEY` when it is truthy. -/
def setToken (token : String) (s : Storage) : Storage :=
  if token = "" then s else storageSet TOKEN_KEY token s

/-- `getToken`: reads `TOKEN_KEY`, `null` (`none`) when absent. -/
def getToken (s : Storage) : Option String :=
  s TOKEN_KEY

/-- `clearToken`: removes `TOKEN_KEY`. -/
def clearToken (s : Storage) : Storage :=
  storageRemove TOKEN_KEY s

/-- `setUser`: stores the serialized user under `USER_KEY` when truthy. -/
def setUser (userJson : String) (s : Storage) : Storage :=
  if userJson = "" then s else storageSet USER_KEY userJson s

/-- `getUser`: reads `USER_KEY` and parses it, `null` (`none`) when
absent; the stored serialization is returned unparsed here. -/
def getUser (s : Storage) : Option String :=
  s USER_KEY

/-- `clearUser`: removes `USER_KEY`. -/
def clearUser (s : Storage) : Storage :=
  storageRemove USER_KEY s

/-- `clearAuthData`: `clearToken(); clearUser();`. -/
def clearAuthData (s : Storage) : Storage :=
  clearUser (clearToken s)

/-- `authLogout`: calls `clearAuthData`. -/
def authLogout (s : Storage) : Storage :=
  clearAuthData s

/-- The first `mockRequestsData` entry (John Student, Basketball Set),
used as a concrete fixture in witnesses and counterexamples. -/
def johnRequest : Request :=
  { id := 1
    studentName := "John Student"
    studentId := "STU001"
    studentEmail := "student@example.com"
    equipmentName := "Basketball Set"
    equipmentId := 1
    requestedDate := "2025-11-02"
    borrowFromDate := "2025-11-05"
    borrowToDate := "2025-11-10"
    purpose := "Sports practice and tournament"
    status := Status.pending
    approvedBy := none
    approvalDate := none
    notes := none }

/-- The second `mockRequestsData` entry (Jane Doe, Microscope). -/
def janeRequest : Request :=
  { id := 2
    studentName := "Jane Doe"
    studentId := "STU002"
    studentEmail := "jane@example.com"
    equipmentName := "Microscope"
    equipmentId := 2
    requestedDate := "2025-11-02"
    borrowFromDate := "2025-11-06"
    borrowToDate := "2025-11-08"
    purpose := "Biology lab experiment"
    status := Status.pending
    approvedBy := none
    approvalDate := none
    notes := none }

/-- The third `mockRequestsData` entry (Mike Johnson, Digital Camera),
already approved. -/
def mikeRequest : Request :=
  { id := 3
    studentName := "Mike Johnson"
    studentId := "STU003"
    studentEmail := "mike@example.com"
    equipmentName := "Digital Camera"
    equipmentId := 3
    requestedDate := "2025-11-01"
    borrowFromDate := "2025-11-03"
    borrowToDate := "2025-11-05"
    purpose := "Photography project"
    status := Status.approved
    approvedBy := some "Admin User"
    approvalDate := some "2025-11-01"
    notes := some "Approved - return in good condition" }

/-- The fifth `mockRequestsData` entry (Tom Wilson, Guitar), rejected. -/
def tomRequest : Request :=
  { id := 5
    studentName := "Tom Wilson"
    studentId := "STU005"
    studentEmail := "tom@example.com"
    equipmentName := "Guitar"
    equipmentId := 4
    requestedDate := "2025-10-31"
    borrowFromDate := "2025-11-01"
    borrowToDate := "2025-11-03"
    purpose := "Musical practice"
    status := Status.rejected
    approvedBy := some "Admin User"
    approvalDate := some "2025-10-31"
    notes := some "Equipment damaged - not available" }

/-- A pending borrow request for the `Toolkit` equipment (id 6), whose
fixture availability is 0. -/
def toolkitRequest : Request :=
  { id := 9
    studentName := "John Student"
    studentId := "STU001"
    studentEmail := "student@example.com"
    equipmentName := "Toolkit"
    equipmentId := 6
    requestedDate := "2025-11-02"
    borrowFromDate := "2025-11-05"
    borrowToDate := "2025-11-10"
    purpose := "Repair project"
    status := Status.pending
    approvedBy := none
    approvalDate := none
    notes := none }

/-- A sample non-admin session user (the mock student account). -/
def studentSession : SessionUser :=
  ⟨"1", "John Student", "student@example.com", Role.student⟩

/-!  ## Helper lemmas  -/

theorem applyOp_eq_map (op : AdminOp) (l : List Request) :
    applyOp op l = l.map (stepReq op) := by
  cases op <;> rfl

theorem get?_mem_of_eq_some {α : Type} {l : List α} {i : Nat} {a : α}
    (h : l.get? i = some a) : a ∈ l := by
  induction l generalizing i with
  | nil => simp [List.get?] at h
  | cons x xs ih =>
    cases i with
    | zero => simp [List.get?] at h; simp [h]
    | succ j =>
      simp only [List.get?] at h
      exact List.mem_cons_of_mem x (ih h)

theorem statusReach_refl (a : Status) : statusReach a a = true := by
  cases a <;> rfl

theorem statusReach_trans {a b c : Status} (hab : statusReach a b = true)
    (hbc : statusReach b c = true) : statusReach a c = true := by
  cases a <;> cases b <;> cases c <;> simp_all [statusReach]

theorem stepReq_statusReach {op : AdminOp} {l : List Request}
    (hg : opGuard op l) {r : Request} (hr : r ∈ l) :
    statusReach r.status (stepReq op r).status = true := by
  cases op with
  | approve u t n rid =>
    by_cases h : r.id = rid
    · have := hg r hr h
      simp [stepReq, h, this, statusReach]
    · simp [stepReq, h, statusReach_refl]
  | reject u t n rid =>
    by_cases h : r.id = rid
    · have := hg r hr h
      simp [stepReq, h, this, statusReach]
    · simp [stepReq, h, statusReach_refl]
  | markReturned n rid =>
    by_cases h : r.id = rid
    · have := hg r hr h
      simp [stepReq, h, this, statusReach]
    · simp [stepReq, h, statusReach_refl]

theorem applyOp_get? (op : AdminOp) (l : List Request) (i : Nat) :
    (applyOp op l).get? i = (l.get? i).map (stepReq op) := by
  rw [applyOp_eq_map, List.get?_map]

/-!  ## C1  -/

/-- C1 (amended): for every sequence of approve, reject and markReturned
operations in which each operation satisfies the guard the UI enforces at
the moment it fires (approve and reject are offered only on requests whose
current status is pending, markReturned only on approved ones), every
status change moves along the reflexive-transitive closure of the edges
pending to approved, pending to rejected and approved to returned; in
particular no guarded sequence leaves rejected or returned.  The handlers
themselves apply their update unconditionally, so the guard hypothesis is
necessary (see the counterexample). -/
theorem guardedSeq_status_reach :
    ∀ (ops : List AdminOp) (l : List Request), GuardedSeq ops l →
      ∀ (i : Nat) (r r' : Request), l.get? i = some r →
        (applySeq ops l).get? i = some r' →
        statusReach r.status r'.status = true := by
  intro ops
  induction ops with
  | nil =>
    intro l _ i r r' h1 h2
    simp only [applySeq, List.foldl_nil] at h2
    rw [h1] at h2
    cases h2
    exact statusReach_refl _
  | cons op rest ih =>
    intro l hg i r r' h1 h2
    cases hg with
    | cons hop hrest =>
      have hmid : (applyOp op l).get? i = some (stepReq op r) := by
        rw [applyOp_get?, h1]; rfl
      have hseq : (applySeq rest (applyOp op l)).get? i = some r' := by
        simpa [applySeq, List.foldl_cons] using h2
      have hers := ih (applyOp op l) hrest i (stepReq op r) r' hmid hseq
      exact statusReach_trans (stepReq_statusReach hop (get?_mem_of_eq_some h1)) hers

/-- C1 witness: one guarded approve on a pending request, where the
status goes from pending to approved. -/
theorem guardedSeq_status_reach_witness :
    statusReach Status.pending Status.approved = true :=
  guardedSeq_status_reach [AdminOp.approve "Admin User" "2025-11-03" "ok" 1]
    [johnRequest]
    (GuardedSeq.cons
      (by intro r hr hid
          have hr' : r = johnRequest := by simpa using hr
          subst hr'
          rfl)
      (GuardedSeq.nil _)) 0 johnRequest
    (stepReq (AdminOp.approve "Admin User" "2025-11-03" "ok" 1) johnRequest)
    rfl rfl

/-- C1 counterexample: `handleApprove` invoked on a request whose status
is rejected does not leave the status unchanged; it sets it to approved,
a transition out of rejected. -/
theorem approve_on_rejected_changes_status :
    tomRequest.status = Status.rejected ∧
    (handleApprove "Admin User" "2025-11-03" "ok" 5 [tomRequest]).map
      Request.status = [Status.approved] := by
  constructor
  · rfl
  · rfl

/-!  ## C2 and C3: what the code actually does at the failing inputs  -/

/-- C2 (code gap evidence): the `Toolkit` fixture has `available = 0`,
yet approving a pending request for it succeeds unconditionally — both
`handleApprove` of `RequestsManagement` and `handleApproveRequest` of
`AdminDashboard` set the status to approved without consulting any
equipment record, raising no capacity error and decrementing nothing. -/
theorem approve_ignores_capacity :
    (mockEquipmentData.find? fun e => e.id == 6).map Equipment.available =
      some 0 ∧
    (handleApprove "Admin User" "2025-11-03" "ok" 9 [toolkitRequest]).map
      Request.status = [Status.approved] ∧
    (handleApproveRequest 9
      [⟨9, "John Student", "STU001", "Toolkit", "2025-11-02", Status.pending⟩]).map
      RecentRequest.status = [Status.approved] := by
  refine ⟨?_, ?_, ?_⟩ <;> rfl

/-- C3 (code gap evidence): `handleMarkReturned` on an approved request
sets the status to returned and stores the notes, and that is all the
return path does — it takes and produces only the request list, so the
availability of the referenced equipment (2 for the Digital Camera
fixture) is not incremented by any code in the page. -/
theorem markReturned_no_inventory_update :
    handleMarkReturned "Returned in good condition" 3 [mikeRequest] =
      [{ mikeRequest with
          status := Status.returned
          notes := some "Returned in good condition" }] ∧
    (mockEquipmentData.find? fun e => e.id == 3).map Equipment.available =
      some 2 := by
  constructor
  · rfl
  · rfl

/-!  ## C7  -/

/-- C7: a successful approve of a pending request records status approved,
the acting admin name in `approvedBy`, the current date in `approvalDate`
and the supplied notes in `notes`; a reject analogously records status
rejected with the reason, approver and date. -/
theorem approve_reject_record_decision :
    ∀ (u t n : String) (rid : Nat) (l : List Request) (i : Nat) (r : Request),
      l.get? i = some r → r.id = rid → r.status = Status.pending →
      (handleApprove u t n rid l).get? i =
        some { r with
          status := Status.approved
          approvedBy := some u
          approvalDate := some t
          notes := some n } ∧
      (handleReject u t n rid l).get? i =
        some { r with
          status := Status.rejected
          approvedBy := some u
          approvalDate := some t
          notes := some n } := by
  intro u t n rid l i r h1 hid _
  constructor
  · show (l.map _).get? i = _
    rw [List.get?_map, h1]
    simp [hid]
  · show (l.map _).get? i = _
    rw [List.get?_map, h1]
    simp [hid]

/-- C7 witness: approving and rejecting the pending fixture request with
concrete admin name, date and notes. -/
theorem approve_reject_record_decision_witness :
    (handleApprove "Admin User" "2025-11-03" "ok" 1 [johnRequest]).get? 0 =
      some { johnRequest with
        status := Status.approved
        approvedBy := some "Admin User"
        approvalDate := some "2025-11-03"
        notes := some "ok" } ∧
    (handleReject "Admin User" "2025-11-03" "ok" 1 [johnRequest]).get? 0 =
      some { johnRequest with
        status := Status.rejected
        approvedBy := some "Admin User"
        approvalDate := some "2025-11-03"
        notes := some "ok" } :=
  approve_reject_record_decision "Admin User" "2025-11-03" "ok" 1
    [johnRequest] 0 johnRequest rfl rfl rfl

/-!  ## C10  -/

/-- C10: each of approve, reject and markReturned leaves every request
whose id differs from the target completely unchanged, and changes no
field of the target other than status, approver, decision date and
notes. -/
theorem applyOp_frame :
    ∀ (op : AdminOp) (l : List Request) (i : Nat) (r r' : Request),
      l.get? i = some r → (applyOp op l).get? i = some r' →
      (r'.id = r.id ∧ r'.studentName = r.studentName ∧
       r'.studentId = r.studentId ∧ r'.studentEmail = r.studentEmail ∧
       r'.equipmentName = r.equipmentName ∧ r'.equipmentId = r.equipmentId ∧
       r'.requestedDate = r.requestedDate ∧
       r'.borrowFromDate = r.borrowFromDate ∧
       r'.borrowToDate = r.borrowToDate ∧ r'.purpose = r.purpose) ∧
      (r.id ≠ op.target → r' = r) := by
  intro op l i r r' h1 h2
  rw [applyOp_get?, h1] at h2
  have h2' : some (stepReq op r) = some r' := h2
  cases h2'
  cases op with
  | approve u t n rid =>
    by_cases hid : r.id = rid
    · refine ⟨by simp [stepReq, hid], ?_⟩
      intro hne
      exact absurd hid hne
    · exact ⟨by simp [stepReq, hid], fun _ => by simp [stepReq, hid]⟩
  | reject u t n rid =>
    by_cases hid : r.id = rid
    · refine ⟨by simp [stepReq, hid], ?_⟩
      intro hne
      exact absurd hid hne
    · exact ⟨by simp [stepReq, hid], fun _ => by simp [stepReq, hid]⟩
  | markReturned n rid =>
    by_cases hid : r.id = rid
    · refine ⟨by simp [stepReq, hid], ?_⟩
      intro hne
      exact absurd hid hne
    · exact ⟨by simp [stepReq, hid], fun _ => by simp [stepReq, hid]⟩

/-- C10 witness: marking the approved fixture request returned targets id
3, so the request with id 2 is untouched and the target only changes the
decision fields. -/
theorem applyOp_frame_witness :
    (janeRequest.id = janeRequest.id ∧
     janeRequest.studentName = janeRequest.studentName ∧
     janeRequest.studentId = janeRequest.studentId ∧
     janeRequest.studentEmail = janeRequest.studentEmail ∧
     janeRequest.equipmentName = janeRequest.equipmentName ∧
     janeRequest.equipmentId = janeRequest.equipmentId ∧
     janeRequest.requestedDate = janeRequest.requestedDate ∧
     janeRequest.borrowFromDate = janeRequest.borrowFromDate ∧
     janeRequest.borrowToDate = janeRequest.borrowToDate ∧
     janeRequest.purpose = janeRequest.purpose) ∧
    (janeRequest.id ≠ (AdminOp.markReturned "done" 3).target →
      janeRequest = janeRequest) :=
  applyOp_frame (AdminOp.markReturned "done" 3) [janeRequest, mikeRequest]
    0 janeRequest janeRequest rfl rfl

/-!  ## C4  -/

/-- C4: `validateForm` fails exactly when some required field (equipment
selection, from-date, to-date, purpose/notes) is empty or the to-date is
not strictly after the from-date; and the request object
`handleSubmitBorrow` appends is created in status pending. -/
theorem create_validates_and_pending :
    (∀ fd : BorrowFormData, validateFormOk fd = claimValidationOk fd) ∧
    (∀ (u : SessionUser) (e : Equipment) (t : String)
        (prior : List DashRequest),
      handleSubmitBorrow u e t prior =
        prior ++ [newBorrowRequest u e t prior] ∧
      (newBorrowRequest u e t prior).status = Status.pending) := by
  constructor
  · intro fd
    by_cases h1 : fd.equipmentId = "" <;>
      by_cases h2 : fd.borrowFromDate = "" <;>
        by_cases h3 : fd.borrowToDate = "" <;>
          by_cases h4 : fd.notes = "" <;>
            by_cases h5 : dateBefore fd.borrowFromDate fd.borrowToDate = true <;>
              simp_all [validateFormOk, validateForm, claimValidationOk]
  · intro u e t prior
    exact ⟨rfl, rfl⟩

/-!  ## C5  -/

/-- C5: a login attempt whose email and password match a registered mock
user but whose selected role differs from the stored role ends in
the invalid-credentials error branch — `onLogin` is never invoked and no
token is issued — and conversely a login only succeeds when email,
password and role all match one mock user, whose public fields become the
session user. -/
theorem login_requires_matching_role :
    (∀ u ∈ mockUsers, ∀ r : Role, r ≠ u.role →
      handleSubmit ⟨u.email, u.password, r⟩ =
        LoginResult.invalidCredentialsError) ∧
    (∀ (fd : LoginFormData) (su : SessionUser),
      handleSubmit fd = LoginResult.loggedIn su →
      ∃ u ∈ mockUsers, u.email = fd.email ∧ u.password = fd.password ∧
        u.role = fd.role ∧ su = ⟨u.id, u.name, u.email, u.role⟩) := by
  constructor
  · intro u hu r hne
    fin_cases hu <;> cases r <;>
      first
        | exact absurd rfl hne
        | rfl
  · intro fd su h
    unfold handleSubmit at h
    split at h
    · exact absurd h (by simp)
    · split at h
      · exact absurd h (by simp)
      · rename_i hfind
        split at h
        · rename_i u hu
          refine ⟨u, List.mem_of_find?_eq_some hu, ?_⟩
          have hp := List.find?_some hu
          simp only [Bool.and_eq_true, beq_iff_eq] at hp
          obtain ⟨⟨he, hpw⟩, hr⟩ := hp
          cases h
          exact ⟨he, hpw, hr, rfl⟩
        · exact absurd h (by simp)

/-- C5 witness: the mock student account with the staff role selected is
rejected with the invalid-credentials error. -/
theorem login_requires_matching_role_witness :
    handleSubmit ⟨"student@example.com", "password123", Role.staff⟩ =
      LoginResult.invalidCredentialsError :=
  login_requires_matching_role.1
    ⟨"1", "John Student", "student@example.com", "password123", Role.student⟩
    (by simp [mockUsers]) Role.staff (by decide)

/-!  ## C6  -/

/-- C6: for every caller context that does not carry the admin role
(including the absent user), the three admin-only frontend routes render
a redirect to the login route instead of their page; every admin-only
backend handler of `requestRoutes` is wired behind the `adminOnly`
middleware; and dispatching any such route for a non-admin caller is not
admitted and leaves the store state unchanged. -/
theorem admin_gate_denies_nonadmin :
    (∀ user : Option SessionUser, isAdminCtx user = false →
      renderRoute user RoutePath.adminDashboard =
        RenderResult.navigate RoutePath.login ∧
      renderRoute user RoutePath.equipmentManagement =
        RenderResult.navigate RoutePath.login ∧
      renderRoute user RoutePath.requests =
        RenderResult.navigate RoutePath.login) ∧
    (∀ e ∈ requestRoutes, e.handler ∈ adminHandlers →
      Middleware.adminOnly ∈ e.middlewares) ∧
    (∀ (St : Type) (exec : RouteHandler → St → St) (e : RouteEntry)
        (user : Option SessionUser) (st : St),
      e ∈ requestRoutes → e.handler ∈ adminHandlers →
      isAdminCtx user = false →
      dispatch exec e user st = ⟨false, st⟩) := by
  refine ⟨?_, ?_, ?_⟩
  · intro user h
    cases user with
    | none => exact ⟨rfl, rfl, rfl⟩
    | some u =>
      have hne : ¬ u.role = Role.admin := by
        simpa [isAdminCtx] using h
      exact ⟨by simp [renderRoute, hne], by simp [renderRoute, hne],
        by simp [renderRoute, hne]⟩
  · decide
  · intro St exec e user st he hh hna
    have hadm : Middleware.adminOnly ∈ e.middlewares := by
      fin_cases he <;> simp_all [adminHandlers]
    have hfail : passesMiddleware user Middleware.adminOnly = false := by
      cases user with
      | none => rfl
      | some u => simpa [passesMiddleware, isAdminCtx] using hna
    have hall : e.middlewares.all (passesMiddleware user) = false := by
      refine Bool.eq_false_iff.mpr fun habs => ?_
      have hone := List.all_eq_true.mp habs _ hadm
      rw [hfail] at hone
      exact Bool.false_ne_true hone
    simp [dispatch, hall]

/-- C6 witness: the mock student account is redirected from the admin
dashboard and its dispatch through the approve route is denied without a
state change. -/
theorem admin_gate_denies_nonadmin_witness :
    renderRoute (some studentSession) RoutePath.adminDashboard =
      RenderResult.navigate RoutePath.login ∧
    dispatch (fun _ n => n + 1)
      ⟨"POST", "/:requestId/approve",
        [Middleware.authenticate, Middleware.adminOnly],
        RouteHandler.approveRequest⟩
      (some studentSession) (0 : Nat) = ⟨false, 0⟩ :=
  ⟨(admin_gate_denies_nonadmin.1 (some studentSession) rfl).1,
    admin_gate_denies_nonadmin.2.2 Nat (fun _ n => n + 1) _
      (some studentSession) 0 (by decide) (by decide) rfl⟩

/-!  ## C8  -/

/-- C8 counterexample: with the non-empty search term `"001"` and the
status filter `"all"`, the filter includes the first fixture request,
although neither its student name nor its equipment name contains the
term — the match is on its student id `"STU001"`. -/
theorem filter_includes_studentId_only_match :
    johnRequest ∈ getFilteredRequests mockRequestsData "001" "all" ∧
    containsCI johnRequest.studentName "001" = false ∧
    containsCI johnRequest.equipmentName "001" = false ∧
    containsCI johnRequest.studentId "001" = true := by
  refine ⟨?_, ?_, ?_, ?_⟩ <;> decide

/-- C8 (amended): for a non-empty search term, `getFilteredRequests`
returns exactly the requests whose status matches the filter (all
statuses when the filter is `"all"`) and whose student name, equipment
name or student id contains the term as a case-insensitive substring. -/
theorem getFilteredRequests_mem_iff :
    ∀ (requests : List Request) (term fstat : String) (r : Request),
      term ≠ "" →
      (r ∈ getFilteredRequests requests term fstat ↔
        r ∈ requests ∧ (fstat = "all" ∨ statusStr r.status = fstat) ∧
        (containsCI r.studentName term = true ∨
         containsCI r.equipmentName term = true ∨
         containsCI r.studentId term = true)) := by
  intro requests term fstat r hterm
  unfold getFilteredRequests
  rw [if_pos hterm]
  by_cases hs : fstat = "all"
  · rw [if_neg (by simp [hs])]
    simp only [List.mem_filter, Bool.or_eq_true]
    constructor
    · rintro ⟨hmem, hb⟩
      exact ⟨hmem, Or.inl hs, by tauto⟩
    · rintro ⟨hmem, _, hb⟩
      exact ⟨hmem, by tauto⟩
  · rw [if_pos hs]
    simp only [List.mem_filter, Bool.or_eq_true, beq_iff_eq]
    constructor
    · rintro ⟨⟨hmem, hb⟩, hst⟩
      exact ⟨hmem, Or.inr hst, by tauto⟩
    · rintro ⟨hmem, hst, hb⟩
      cases hst with
      | inl h => exact absurd h hs
      | inr h => exact ⟨⟨hmem, by tauto⟩, h⟩

/-- C8 witness: the second fixture request is in the filter output for
the term `"jane"` with filter `"all"`, by the amended characterization. -/
theorem getFilteredRequests_mem_iff_witness :
    janeRequest ∈ getFilteredRequests mockRequestsData "jane" "all" ↔
      janeRequest ∈ mockRequestsData ∧
      ("all" = "all" ∨ statusStr janeRequest.status = "all") ∧
      (containsCI janeRequest.studentName "jane" = true ∨
       containsCI janeRequest.equipmentName "jane" = true ∨
       containsCI janeRequest.studentId "jane" = true) :=
  getFilteredRequests_mem_iff mockRequestsData "jane" "all" janeRequest
    (by decide)

/-!  ## C9  -/

/-- C9: after `authLogout` (which calls `clearAuthData`), `getToken` and
`getUser` both return `null`, for every prior storage state. -/
theorem logout_clears_auth :
    ∀ s : Storage, getToken (authLogout s) = none ∧
      getUser (authLogout s) = none := by
  intro s
  constructor
  · show storageRemove USER_KEY (storageRemove TOKEN_KEY s) TOKEN_KEY = none
    rw [show storageRemove USER_KEY (storageRemove TOKEN_KEY s) TOKEN_KEY =
        if TOKEN_KEY = USER_KEY then none
        else storageRemove TOKEN_KEY s TOKEN_KEY from rfl]
    rw [if_neg (by decide)]
    rfl
  · rfl

end Portal
